import Mathlib

/-!
Shallow embedding of the godal C bridge (godal.cpp, vsil_go.cpp) and proofs
about its virtual-filesystem handle, multi-range read coalescing, error
bridging and config scoping.  Machine `vsi_l_offset` values (unsigned 64-bit)
are modelled as `Nat` reduced mod `2 ^ 64` wherever the C code can wrap.
Caller-supplied Go callbacks are parameters of the Lean functions; every
operation additionally returns the trace of callback invocations and of
diagnostics it emitted, so that claims about what is (or is not) invoked are
statable.
-/

namespace Godal

/-- Modulus of the C `vsi_l_offset` type (unsigned 64-bit). -/
def U64 : Nat := 2 ^ 64

/-- C stdio whence constant. -/
def SEEK_SET : Nat := 0

/-- C stdio whence constant. -/
def SEEK_CUR : Nat := 1

/-- C errno constant used by the bridge on missing files. -/
def ENOENT : Nat := 2

/-- C errno constant used by the bridge on failed reads. -/
def EIO : Nat := 5

/-- CPLErr severity levels from cpl_error.h. -/
def CE_Warning : Nat := 2

/-- CPLErr severity levels from cpl_error.h. -/
def CE_Failure : Nat := 3

/-- CPL error-number constant from cpl_error.h. -/
def CPLE_AppDefined : Nat := 1

/-- State of `class VSIGoHandle` (vsil_go.cpp): filename key, read cursor,
known total size, end-of-file flag (an `int` in the source, 0 or 1). -/
structure VSIGoHandle where
  m_filename : String
  m_cur : Nat
  m_size : Nat
  m_eof : Nat
  deriving Repr, DecidableEq

/-- `VSIGoHandle::VSIGoHandle` constructor: cursor 0, eof clear, size seeded. -/
def VSIGoHandle.new (filename : String) (size : Nat) : VSIGoHandle :=
  { m_filename := filename, m_cur := 0, m_size := size, m_eof := 0 }

/-- `VSIGoHandle::Seek`: SEEK_SET stores the offset, SEEK_CUR adds it to the
cursor (u64 wraparound), any other whence jumps to the recorded size and
ignores the offset; the eof flag is cleared and 0 is returned in all cases. -/
def VSIGoHandle.Seek (h : VSIGoHandle) (nOffset : Nat) (nWhence : Nat) :
    VSIGoHandle × Int :=
  let h' :=
    if nWhence = SEEK_SET then
      { h with m_cur := nOffset % U64 }
    else if nWhence = SEEK_CUR then
      { h with m_cur := (h.m_cur + nOffset) % U64 }
    else
      { h with m_cur := h.m_size }
  ({ h' with m_eof := 0 }, 0)

/-- `VSIGoHandle::Tell`. -/
def VSIGoHandle.Tell (h : VSIGoHandle) : Nat := h.m_cur

/-- `VSIGoHandle::Eof`. -/
def VSIGoHandle.Eof (h : VSIGoHandle) : Nat := h.m_eof

/-- Result of `VSIGoHandle::Read`: updated handle, return value (number of
whole elements), the CPLError diagnostics emitted, the errno value set (if
any), and the trace of `_gogdalReadCallback` invocations as
(filename, offset, length) triples. -/
structure ReadResult where
  handle : VSIGoHandle
  ret : Nat
  diags : List String
  errnoSet : Option Nat
  callbackCalls : List (String × Nat × Nat)
  deriving Repr, DecidableEq

/-- `VSIGoHandle::Read` (vsil_go.cpp lines 137-159).  `readCb` models
`_gogdalReadCallback`, returning the number of bytes delivered and an
optional error string.  All quantities are `size_t`: the parameters and the
callback return hold their values mod 2 ^ 64, and the product
`nSize * nCount` wraps mod 2 ^ 64 in the zero test, the callback length and
the short-read test, exactly as the C source computes it.  A zero-length
request returns 0 without invoking the callback; a callback error is
surfaced as a diagnostic plus `errno = EIO` and a 0 return; a short read
sets the eof flag, and the function returns whole elements only, advancing
the cursor by whole elements times size. -/
def VSIGoHandle.Read (readCb : String → Nat → Nat → Nat × Option String)
    (h : VSIGoHandle) (nSize0 nCount0 : Nat) : ReadResult :=
  let nSize := nSize0 % U64
  let nCount := nCount0 % U64
  if (nSize * nCount) % U64 = 0 then
    { handle := h, ret := 0, diags := [], errnoSet := none, callbackCalls := [] }
  else
    let call := (h.m_filename, h.m_cur, (nSize * nCount) % U64)
    let r := readCb h.m_filename h.m_cur ((nSize * nCount) % U64)
    match r.2 with
    | some e =>
      { handle := h, ret := 0, diags := [e], errnoSet := some EIO,
        callbackCalls := [call] }
    | none =>
      let read := r.1 % U64
      let h1 := if read ≠ (nSize * nCount) % U64 then { h with m_eof := 1 } else h
      let readblocks := read / nSize
      { handle := { h1 with m_cur := (h1.m_cur + (readblocks * nSize) % U64) % U64 },
        ret := readblocks, diags := [], errnoSet := none,
        callbackCalls := [call] }

/-- A destination buffer, byte by byte: `some b` once a byte has been
written, `none` while the byte is still uninitialized (freshly allocated
with `new char[n]`). -/
abbrev Buf := List (Option Nat)

/-- What the Go `_gogdalMultiReadCallback` does for one batch: the bytes it
deposits into each buffer of the batch it is handed (one entry per range of
the batch), its int return value, and an optional error string. -/
structure MultiReadResult where
  bufs : List (List Nat)
  ret : Int
  err : Option String
  deriving Repr, DecidableEq

/-- Result of `VSIGoHandle::ReadMultiRange`: return value, final contents of
the caller destination buffers, diagnostics, errno, and the trace of
callback invocations (each invocation records the (offset, size) batch it
was handed). -/
structure MRResult where
  ret : Int
  ppData : List Buf
  diags : List String
  errnoSet : Option Nat
  calls : List (List (Nat × Nat))
  deriving Repr, DecidableEq

/-- The `nMergedRanges` count of vsil_go.cpp lines 163-171: starts at 1 and
adds 1 for every adjacent input pair whose first range does not end exactly
where the second begins.  The sum `panOffsets[i] + panSizes[i]` is unsigned
64-bit arithmetic, so it wraps mod 2 ^ 64. -/
def nMergedRanges : List (Nat × Nat) → Nat
  | (o1, s1) :: (o2, s2) :: rest =>
      (if (o1 + s1) % U64 ≠ o2 then 1 else 0) + nMergedRanges ((o2, s2) :: rest)
  | _ => 1

/-- Loop of vsil_go.cpp lines 190-207 building the merged (offset, size)
runs: `cur` is the run being accumulated (mOffsets/mSizes at curRange),
`prev` is the previous original pair used for the adjacency test.  Both the
adjacency sum and the size accumulation are unsigned 64-bit, wrapping
mod 2 ^ 64. -/
def buildRuns (cur : Nat × Nat) (prev : Nat × Nat) :
    List (Nat × Nat) → List (Nat × Nat)
  | [] => [cur]
  | (o2, s2) :: rest =>
      if (prev.1 + prev.2) % U64 = o2 then
        buildRuns (cur.1, (cur.2 + s2) % U64) (o2, s2) rest
      else
        cur :: buildRuns (o2, s2) (o2, s2) rest

/-- The merged runs the code materializes in mOffsets/mSizes. -/
def mergeRuns : List (Nat × Nat) → List (Nat × Nat)
  | [] => []
  | r :: rest => buildRuns r r rest

/-- `memcpy(dst, src + off, len)` on a modelled buffer. -/
def extractBytes (b : Buf) (off len : Nat) : Buf := (b.drop off).take len

/-- Demultiplex loop of vsil_go.cpp lines 214-230: walks the original pairs,
copying each destination buffer out of the merged-run buffers `mData` at the
running intra-run offset.  The adjacency sum and the `size_t` offset
accumulation wrap mod 2 ^ 64 as in the source. -/
def demuxGo (curBuf : Buf) (restBufs : List Buf) (curOffset : Nat)
    (prev : Nat × Nat) : List (Nat × Nat) → List Buf
  | [] => []
  | (o2, s2) :: rest =>
      if (prev.1 + prev.2) % U64 = o2 then
        extractBytes curBuf curOffset s2 ::
          demuxGo curBuf restBufs ((curOffset + s2) % U64) (o2, s2) rest
      else
        match restBufs with
        | [] => []
        | b :: bs => extractBytes b 0 s2 :: demuxGo b bs s2 (o2, s2) rest

/-- Entry to the demultiplex phase: first `memcpy(ppData[0], mData[0],
panSizes[0])`, then the loop over the remaining pairs. -/
def demux (mData : List Buf) : List (Nat × Nat) → List Buf
  | [] => []
  | (o0, s0) :: rest =>
      match mData with
      | [] => []
      | b :: bs => extractBytes b 0 s0 :: demuxGo b bs s0 (o0, s0) rest

/-- `VSIGoHandle::ReadMultiRange` (vsil_go.cpp lines 161-249).  `multiCb`
models `_gogdalMultiReadCallback`.  Fast path when no two ranges are
adjacent: one callback invocation on the original batch, its buffers land in
the destinations, a callback error becomes a diagnostic plus errno EIO and
return -1.  Merge path otherwise: merged-run buffers `mData` are allocated
(uninitialized), the callback is invoked — with the ORIGINAL batch, exactly
as the source does at line 210 — and on success every destination buffer is
overwritten from the (still uninitialized) merged buffers by the
demultiplex loop. -/
def VSIGoHandle.ReadMultiRange
    (multiCb : String → List (Nat × Nat) → MultiReadResult)
    (h : VSIGoHandle) (ranges : List (Nat × Nat)) : MRResult :=
  if nMergedRanges ranges = ranges.length then
    let r := multiCb h.m_filename ranges
    match r.err with
    | some e =>
      { ret := -1, ppData := r.bufs.map (fun b => b.map some),
        diags := [e], errnoSet := some EIO, calls := [ranges] }
    | none =>
      { ret := r.ret, ppData := r.bufs.map (fun b => b.map some),
        diags := [], errnoSet := none, calls := [ranges] }
  else
    let merged := mergeRuns ranges
    let mData : List Buf := merged.map (fun p => List.replicate p.2 none)
    let r := multiCb h.m_filename ranges
    match r.err with
    | none =>
      { ret := r.ret, ppData := demux mData ranges,
        diags := [], errnoSet := none, calls := [ranges] }
    | some e =>
      { ret := -1, ppData := r.bufs.map (fun b => b.map some),
        diags := [e], errnoSet := some EIO, calls := [ranges] }

/-- Claim C10: Seek on a virtual file handle returns 0 for every offset and
whence mode with no bounds checking: SEEK_SET stores the given offset even
beyond the file size, SEEK_CUR adds the offset to the cursor, any other
whence sets the cursor to the recorded size ignoring the offset, and the
eof flag is cleared in all cases. -/
theorem seek_no_bounds_check (h : VSIGoHandle) (off whence : Nat)
    (hoff : off < U64) :
    (h.Seek off whence).2 = 0 ∧
    (h.Seek off whence).1.m_eof = 0 ∧
    (whence = SEEK_SET → (h.Seek off whence).1.m_cur = off) ∧
    (whence = SEEK_CUR →
      (h.Seek off whence).1.m_cur = (h.m_cur + off) % U64) ∧
    (whence ≠ SEEK_SET → whence ≠ SEEK_CUR →
      (h.Seek off whence).1.m_cur = h.m_size ∧
      ∀ off2 : Nat, (h.Seek off2 whence).1.m_cur = h.m_size) := by
  unfold VSIGoHandle.Seek
  refine ⟨?_, ?_, ?_, ?_, ?_⟩
  · split <;> simp
  · split <;> simp
  · intro hw
    simp [hw, Nat.mod_eq_of_lt hoff]
  · intro hw
    simp [hw, SEEK_CUR, SEEK_SET]
  · intro h1 h2
    constructor
    · simp [h1, h2]
    · intro off2
      simp [h1, h2]

/-- Witness for seek_no_bounds_check at a concrete handle, offset 42
(beyond the size 10 file) and whence SEEK_SET. -/
theorem seek_no_bounds_check_witness :
    (42 : Nat) < U64 ∧
    (((VSIGoHandle.new "f" 10).Seek 42 SEEK_SET).2 = 0 ∧
     ((VSIGoHandle.new "f" 10).Seek 42 SEEK_SET).1.m_eof = 0 ∧
     (SEEK_SET = SEEK_SET →
       ((VSIGoHandle.new "f" 10).Seek 42 SEEK_SET).1.m_cur = 42) ∧
     (SEEK_SET = SEEK_CUR →
       ((VSIGoHandle.new "f" 10).Seek 42 SEEK_SET).1.m_cur =
         ((VSIGoHandle.new "f" 10).m_cur + 42) % U64) ∧
     (SEEK_SET ≠ SEEK_SET → SEEK_SET ≠ SEEK_CUR →
       ((VSIGoHandle.new "f" 10).Seek 42 SEEK_SET).1.m_cur =
         (VSIGoHandle.new "f" 10).m_size ∧
       ∀ off2 : Nat, ((VSIGoHandle.new "f" 10).Seek off2 SEEK_SET).1.m_cur =
         (VSIGoHandle.new "f" 10).m_size)) :=
  ⟨by norm_num [U64],
   seek_no_bounds_check (VSIGoHandle.new "f" 10) 42 SEEK_SET (by norm_num [U64])⟩

/-- Claim C3: when the requested byte count `nSize * nCount` fits a size_t
(no wraparound of the product, the regime where the claim's "fewer bytes
than size times count" is well defined) and the read callback returns
without error but delivers fewer bytes than requested, the eof flag is set,
no error diagnostic or errno is produced, the return value is
bytesRead / size (whole elements only), the cursor advances by exactly that
many whole elements times size, and any subsequent Seek clears the eof
flag. -/
theorem read_short_sets_eof (readCb : String → Nat → Nat → Nat × Option String)
    (h : VSIGoHandle) (nSize nCount r : Nat)
    (hlen : nSize * nCount < U64)
    (hcb : readCb h.m_filename h.m_cur (nSize * nCount) = (r, none))
    (hshort : r < nSize * nCount) :
    (h.Read readCb nSize nCount).handle.m_eof = 1 ∧
    (h.Read readCb nSize nCount).diags = [] ∧
    (h.Read readCb nSize nCount).errnoSet = none ∧
    (h.Read readCb nSize nCount).ret = r / nSize ∧
    (h.Read readCb nSize nCount).handle.m_cur =
      (h.m_cur + (r / nSize) * nSize) % U64 ∧
    ∀ off whence : Nat,
      (((h.Read readCb nSize nCount).handle.Seek off whence)).1.m_eof = 0 := by
  have hS : nSize ≠ 0 := by
    rintro rfl
    simp at hshort
  have hC : nCount ≠ 0 := by
    rintro rfl
    simp at hshort
  have hs : nSize < U64 :=
    lt_of_le_of_lt (Nat.le_mul_of_pos_right nSize (Nat.pos_of_ne_zero hC)) hlen
  have hc : nCount < U64 :=
    lt_of_le_of_lt (Nat.le_mul_of_pos_left nCount (Nat.pos_of_ne_zero hS)) hlen
  have hr : r < U64 := lt_trans hshort hlen
  have hrb : (r / nSize) * nSize < U64 :=
    lt_of_le_of_lt (Nat.div_mul_le_self r nSize) hr
  have hnz : nSize * nCount ≠ 0 := Nat.not_eq_zero_of_lt hshort
  have hne : r ≠ nSize * nCount := Nat.ne_of_lt hshort
  unfold VSIGoHandle.Read
  simp only [Nat.mod_eq_of_lt hs, Nat.mod_eq_of_lt hc, Nat.mod_eq_of_lt hlen,
    Nat.mod_eq_of_lt hr, Nat.mod_eq_of_lt hrb, hnz, if_false, hcb, hne, ne_eq,
    not_false_eq_true, if_true]
  refine ⟨trivial, trivial, trivial, trivial, trivial, ?_⟩
  intro off whence
  unfold VSIGoHandle.Seek
  split <;> simp

/-- Witness for read_short_sets_eof: a callback that always delivers 3 bytes
against a request of 2 times 3 = 6 bytes. -/
theorem read_short_sets_eof_witness :
    (2 * 3 : Nat) < U64 ∧
    ((fun (_ : String) (_ : Nat) (_ : Nat) => ((3 : Nat), (none : Option String)))
        (VSIGoHandle.new "f" 10).m_filename (VSIGoHandle.new "f" 10).m_cur (2 * 3) =
      (3, none)) ∧
    (3 : Nat) < 2 * 3 ∧
    (((VSIGoHandle.new "f" 10).Read
        (fun _ _ _ => (3, none)) 2 3).handle.m_eof = 1 ∧
     ((VSIGoHandle.new "f" 10).Read
        (fun _ _ _ => (3, none)) 2 3).diags = [] ∧
     ((VSIGoHandle.new "f" 10).Read
        (fun _ _ _ => (3, none)) 2 3).errnoSet = none ∧
     ((VSIGoHandle.new "f" 10).Read
        (fun _ _ _ => (3, none)) 2 3).ret = 3 / 2 ∧
     ((VSIGoHandle.new "f" 10).Read
        (fun _ _ _ => (3, none)) 2 3).handle.m_cur =
       ((VSIGoHandle.new "f" 10).m_cur + (3 / 2) * 2) % U64 ∧
     ∀ off whence : Nat,
       ((((VSIGoHandle.new "f" 10).Read
           (fun _ _ _ => (3, none)) 2 3).handle.Seek off whence)).1.m_eof = 0) :=
  ⟨by norm_num [U64], rfl, by norm_num,
   read_short_sets_eof (fun _ _ _ => (3, none)) (VSIGoHandle.new "f" 10) 2 3 3
     (by norm_num [U64]) rfl (by norm_num)⟩

/-- Claim C2: with no two adjacent ranges (merged-run count equals N), the
bridge dispatches exactly one callback invocation carrying the N entries
unchanged and in order, and passes the result through: on no error the
callback return value and delivered buffers are returned untouched, and a
callback error is surfaced unchanged as the diagnostic, with errno EIO and
return -1. -/
theorem readMultiRange_fast_path
    (multiCb : String → List (Nat × Nat) → MultiReadResult)
    (h : VSIGoHandle) (ranges : List (Nat × Nat))
    (hfast : nMergedRanges ranges = ranges.length) :
    (h.ReadMultiRange multiCb ranges).calls = [ranges] ∧
    ((multiCb h.m_filename ranges).err = none →
      (h.ReadMultiRange multiCb ranges).ret = (multiCb h.m_filename ranges).ret ∧
      (h.ReadMultiRange multiCb ranges).ppData =
        (multiCb h.m_filename ranges).bufs.map (fun b => b.map some) ∧
      (h.ReadMultiRange multiCb ranges).diags = [] ∧
      (h.ReadMultiRange multiCb ranges).errnoSet = none) ∧
    (∀ e, (multiCb h.m_filename ranges).err = some e →
      (h.ReadMultiRange multiCb ranges).ret = -1 ∧
      (h.ReadMultiRange multiCb ranges).diags = [e] ∧
      (h.ReadMultiRange multiCb ranges).errnoSet = some EIO) := by
  unfold VSIGoHandle.ReadMultiRange
  simp only [hfast, if_pos]
  refine ⟨?_, ?_, ?_⟩
  · cases hc : (multiCb h.m_filename ranges).err <;> simp [hc]
  · intro hn
    simp [hn]
  · intro e he
    simp [he]

/-- Witness for readMultiRange_fast_path on two non-adjacent ranges. -/
theorem readMultiRange_fast_path_witness :
    nMergedRanges [(0, 2), (5, 3)] = ([((0 : Nat), (2 : Nat)), (5, 3)]).length ∧
    (((VSIGoHandle.new "f" 10).ReadMultiRange
        (fun _ rs => { bufs := rs.map (fun p => List.replicate p.2 9),
                       ret := 0, err := none }) [(0, 2), (5, 3)]).calls =
      [[(0, 2), (5, 3)]] ∧
     (((fun (_ : String) (rs : List (Nat × Nat)) =>
          ({ bufs := rs.map (fun p => List.replicate p.2 9),
             ret := 0, err := none } : MultiReadResult))
         (VSIGoHandle.new "f" 10).m_filename [(0, 2), (5, 3)]).err = none →
       ((VSIGoHandle.new "f" 10).ReadMultiRange
          (fun _ rs => { bufs := rs.map (fun p => List.replicate p.2 9),
                         ret := 0, err := none }) [(0, 2), (5, 3)]).ret =
         ((fun (_ : String) (rs : List (Nat × Nat)) =>
             ({ bufs := rs.map (fun p => List.replicate p.2 9),
                ret := 0, err := none } : MultiReadResult))
            (VSIGoHandle.new "f" 10).m_filename [(0, 2), (5, 3)]).ret ∧
       ((VSIGoHandle.new "f" 10).ReadMultiRange
          (fun _ rs => { bufs := rs.map (fun p => List.replicate p.2 9),
                         ret := 0, err := none }) [(0, 2), (5, 3)]).ppData =
         ((fun (_ : String) (rs : List (Nat × Nat)) =>
             ({ bufs := rs.map (fun p => List.replicate p.2 9),
                ret := 0, err := none } : MultiReadResult))
            (VSIGoHandle.new "f" 10).m_filename
            [(0, 2), (5, 3)]).bufs.map (fun b => b.map some) ∧
       ((VSIGoHandle.new "f" 10).ReadMultiRange
          (fun _ rs => { bufs := rs.map (fun p => List.replicate p.2 9),
                         ret := 0, err := none }) [(0, 2), (5, 3)]).diags = [] ∧
       ((VSIGoHandle.new "f" 10).ReadMultiRange
          (fun _ rs => { bufs := rs.map (fun p => List.replicate p.2 9),
                         ret := 0, err := none }) [(0, 2), (5, 3)]).errnoSet =
         none) ∧
     (∀ e, ((fun (_ : String) (rs : List (Nat × Nat)) =>
          ({ bufs := rs.map (fun p => List.replicate p.2 9),
             ret := 0, err := none } : MultiReadResult))
         (VSIGoHandle.new "f" 10).m_filename [(0, 2), (5, 3)]).err = some e →
       ((VSIGoHandle.new "f" 10).ReadMultiRange
          (fun _ rs => { bufs := rs.map (fun p => List.replicate p.2 9),
                         ret := 0, err := none }) [(0, 2), (5, 3)]).ret = -1 ∧
       ((VSIGoHandle.new "f" 10).ReadMultiRange
          (fun _ rs => { bufs := rs.map (fun p => List.replicate p.2 9),
                         ret := 0, err := none }) [(0, 2), (5, 3)]).diags = [e] ∧
       ((VSIGoHandle.new "f" 10).ReadMultiRange
          (fun _ rs => { bufs := rs.map (fun p => List.replicate p.2 9),
                         ret := 0, err := none }) [(0, 2), (5, 3)]).errnoSet =
         some EIO)) :=
  ⟨by decide,
   readMultiRange_fast_path
     (fun _ rs => { bufs := rs.map (fun p => List.replicate p.2 9),
                    ret := 0, err := none })
     (VSIGoHandle.new "f" 10) [(0, 2), (5, 3)] (by decide)⟩

/-- Claim C1 evaluated at a failing input: with the two adjacent ranges
(0,2) and (2,3) and a callback that delivers byte 7 for every byte of
whatever batch it is handed, the source invokes the callback with the
original two-entry batch, not the merged one-entry batch (0,5), and the
destination buffers end up holding only uninitialized bytes copied out of
the never-filled merged-run buffers instead of the delivered data. -/
theorem readMultiRange_merge_path_uses_original_batch :
    ((VSIGoHandle.new "f" 10).ReadMultiRange
        (fun _ rs => { bufs := rs.map (fun p => List.replicate p.2 7),
                       ret := 0, err := none }) [(0, 2), (2, 3)]).calls =
      [[(0, 2), (2, 3)]] ∧
    ((VSIGoHandle.new "f" 10).ReadMultiRange
        (fun _ rs => { bufs := rs.map (fun p => List.replicate p.2 7),
                       ret := 0, err := none }) [(0, 2), (2, 3)]).calls ≠
      [[(0, 5)]] ∧
    ((VSIGoHandle.new "f" 10).ReadMultiRange
        (fun _ rs => { bufs := rs.map (fun p => List.replicate p.2 7),
                       ret := 0, err := none }) [(0, 2), (2, 3)]).ret = 0 ∧
    ((VSIGoHandle.new "f" 10).ReadMultiRange
        (fun _ rs => { bufs := rs.map (fun p => List.replicate p.2 7),
                       ret := 0, err := none }) [(0, 2), (2, 3)]).ppData =
      [[none, none], [none, none, none]] := by decide

/-- State of `class VSIGoFilesystemHandler`: buffer and cache sizes. -/
structure VSIGoFilesystemHandler where
  m_buffer : Nat
  m_cache : Nat
  deriving Repr, DecidableEq

/-- `VSIGoFilesystemHandler::VSIGoFilesystemHandler`: the cache size is
clamped up to the buffer size. -/
def VSIGoFilesystemHandler.new (bufferSize cacheSize : Nat) :
    VSIGoFilesystemHandler :=
  { m_buffer := bufferSize,
    m_cache := if cacheSize < bufferSize then bufferSize else cacheSize }

/-- A handle returned from Open: either the raw `VSIGoHandle` or the same
handle wrapped by the caching decorator `VSICreateCachedFile` with the
configured buffer and cache sizes. -/
inductive OpenedHandle where
  | raw (h : VSIGoHandle)
  | cached (h : VSIGoHandle) (buffer cache : Nat)
  deriving Repr, DecidableEq

/-- Result of `VSIGoFilesystemHandler::Open`: the handle (if any), the
diagnostics emitted, the errno value set, and the trace of
`_gogdalSizeCallback` invocations (the only caller capability reachable
from Open). -/
structure OpenResult where
  handle : Option OpenedHandle
  diags : List String
  errnoSet : Option Nat
  sizeCalls : List String
  deriving Repr, DecidableEq

/-- The test `strchr(s, c) != NULL` on a C string, as a Bool. -/
def strchrB (s : String) (c : Char) : Bool := s.data.contains c

/-- `VSIGoFilesystemHandler::Open` (vsil_go.cpp lines 263-293).  An access
mode containing a w or a + fails immediately with a diagnostic, before the
size callback runs.  A size of -1 fails with errno ENOENT, and the callback
error text (when present) is emitted as a diagnostic — the source does this
whether or not bSetError was passed, which is why `bSetError` is unused
below exactly as in the source.  Otherwise a handle seeded with the size is
returned, cache-wrapped when the buffer size is nonzero. -/
def VSIGoFilesystemHandler.Open (fs : VSIGoFilesystemHandler)
    (sizeCb : String → Int × Option String)
    (pszFilename : String) (pszAccess : String) (bSetError : Bool) :
    OpenResult :=
  if strchrB pszAccess 'w' ∨ strchrB pszAccess '+' then
    { handle := none, diags := ["Only read-only mode is supported"],
      errnoSet := none, sizeCalls := [] }
  else
    let r := sizeCb pszFilename
    if r.1 = -1 then
      { handle := none,
        diags := match r.2 with | some e => [e] | none => [],
        errnoSet := some ENOENT, sizeCalls := [pszFilename] }
    else if fs.m_buffer = 0 then
      { handle := some (.raw (VSIGoHandle.new pszFilename r.1.toNat)),
        diags := [], errnoSet := none, sizeCalls := [pszFilename] }
    else
      { handle := some (.cached (VSIGoHandle.new pszFilename r.1.toNat)
          fs.m_buffer fs.m_cache),
        diags := [], errnoSet := none, sizeCalls := [pszFilename] }

/-- Claim C8: an access mode containing w or + fails unconditionally with a
diagnostic and a null handle, before any caller capability is invoked (the
size-callback trace is empty; read and multi-range capabilities are only
reachable through a handle, and none is created). -/
theorem open_write_mode_rejected_first (fs : VSIGoFilesystemHandler)
    (sizeCb : String → Int × Option String)
    (pszFilename pszAccess : String) (bSetError : Bool)
    (hw : strchrB pszAccess 'w' = true ∨ strchrB pszAccess '+' = true) :
    (fs.Open sizeCb pszFilename pszAccess bSetError).handle = none ∧
    (fs.Open sizeCb pszFilename pszAccess bSetError).sizeCalls = [] ∧
    (fs.Open sizeCb pszFilename pszAccess bSetError).diags =
      ["Only read-only mode is supported"] := by
  unfold VSIGoFilesystemHandler.Open
  rcases hw with hw | hw <;> simp [hw]

/-- Witness for open_write_mode_rejected_first with access mode "w". -/
theorem open_write_mode_rejected_first_witness :
    (strchrB "w" 'w' = true ∨ strchrB "w" '+' = true) ∧
    (((VSIGoFilesystemHandler.new 0 0).Open (fun _ => (10, none))
        "f" "w" true).handle = none ∧
     ((VSIGoFilesystemHandler.new 0 0).Open (fun _ => (10, none))
        "f" "w" true).sizeCalls = [] ∧
     ((VSIGoFilesystemHandler.new 0 0).Open (fun _ => (10, none))
        "f" "w" true).diags = ["Only read-only mode is supported"]) :=
  ⟨Or.inl (by decide),
   open_write_mode_rejected_first (VSIGoFilesystemHandler.new 0 0)
     (fun _ => (10, none)) "f" "w" true (Or.inl (by decide))⟩

/-- Claim C4 evaluated at a failing input: the size callback reports -1 with
error text "file does not exist" and the caller passes bSetError = false;
the open fails with errno ENOENT and no handle as claimed, but the error
text is emitted through the diagnostic channel even though bSetError is
false — the source never consults bSetError. -/
theorem open_size_error_ignores_bSetError :
    ((VSIGoFilesystemHandler.new 0 0).Open
        (fun _ => (-1, some "file does not exist")) "f" "rb" false).handle =
      none ∧
    ((VSIGoFilesystemHandler.new 0 0).Open
        (fun _ => (-1, some "file does not exist")) "f" "rb" false).errnoSet =
      some ENOENT ∧
    ((VSIGoFilesystemHandler.new 0 0).Open
        (fun _ => (-1, some "file does not exist")) "f" "rb" false).diags =
      ["file does not exist"] ∧
    ((VSIGoFilesystemHandler.new 0 0).Open
        (fun _ => (-1, some "file does not exist")) "f" "rb" true).diags =
      ["file does not exist"] := by decide

/-- An entry in the process-wide filesystem handler table of the native
library (modelled from GDAL VSIFileManager, which is not part of this
repository): an installed Go handler, or any other (builtin) handler. -/
inductive VSIHandlerEntry where
  | goHandler (h : VSIGoFilesystemHandler)
  | native
  deriving Repr, DecidableEq

/-- `VSIInstallGoHandler` (vsil_go.cpp lines 332-344): scans the existing
table for the requested scheme; when taken, returns the "already
registered" message and installs nothing; when free, installs a new handler
built from the two sizes and returns null. -/
def VSIInstallGoHandler (table : List (String × VSIHandlerEntry))
    (pfx : String) (bufferSize cacheSize : Nat) :
    Option String × List (String × VSIHandlerEntry) :=
  if (table.map Prod.fst).contains pfx then
    (some "handler already registered on prefix", table)
  else
    (none,
     table ++ [(pfx, .goHandler (VSIGoFilesystemHandler.new bufferSize cacheSize))])

/-- Claim C7: installing on a scheme already claimed by any handler yields
the "already registered" diagnostic and leaves the table — including the
first handler — untouched; installing on a free scheme appends a new
handler and returns no error. -/
theorem installGoHandler_register_once (table : List (String × VSIHandlerEntry))
    (pfx : String) (b c : Nat) :
    ((table.map Prod.fst).contains pfx = true →
      (VSIInstallGoHandler table pfx b c).1 =
        some "handler already registered on prefix" ∧
      (VSIInstallGoHandler table pfx b c).2 = table) ∧
    ((table.map Prod.fst).contains pfx = false →
      (VSIInstallGoHandler table pfx b c).1 = none ∧
      (VSIInstallGoHandler table pfx b c).2 =
        table ++ [(pfx, .goHandler (VSIGoFilesystemHandler.new b c))]) := by
  unfold VSIInstallGoHandler
  constructor
  · intro hin
    have hm : pfx ∈ table.map Prod.fst := by simpa using hin
    simp [hm]
  · intro hout
    have hm : pfx ∉ table.map Prod.fst := by simpa using hout
    simp [hm]

/-- Witness for installGoHandler_register_once on a one-entry table. -/
theorem installGoHandler_register_once_witness :
    ((([("go://", VSIHandlerEntry.native)].map Prod.fst).contains "go://" = true →
      (VSIInstallGoHandler [("go://", VSIHandlerEntry.native)] "go://" 1 2).1 =
        some "handler already registered on prefix" ∧
      (VSIInstallGoHandler [("go://", VSIHandlerEntry.native)] "go://" 1 2).2 =
        [("go://", VSIHandlerEntry.native)]) ∧
     (([("go://", VSIHandlerEntry.native)].map Prod.fst).contains "go://" = false →
      (VSIInstallGoHandler [("go://", VSIHandlerEntry.native)] "go://" 1 2).1 =
        none ∧
      (VSIInstallGoHandler [("go://", VSIHandlerEntry.native)] "go://" 1 2).2 =
        [("go://", VSIHandlerEntry.native)] ++
          [("go://", .goHandler (VSIGoFilesystemHandler.new 1 2))])) :=
  installGoHandler_register_once [("go://", VSIHandlerEntry.native)] "go://" 1 2

/-- The `cctx` call context of godal.h: aggregated error message, external
logger identifier, failure flag, and the KEY=VALUE config override strings
(each modelled as the list of its characters, since godalWrap temporarily
writes a NUL into them). -/
structure cctx where
  errMessage : Option String
  handlerIdx : Nat
  failed : Nat
  configOptions : List (List Char)
  deriving Repr, DecidableEq

/-- One diagnostic as the native library hands it to the installed error
handler: severity, error number, message. -/
structure Diag where
  sev : Nat
  num : Nat
  msg : String
  deriving Repr, DecidableEq

/-- Side effects of running the installed handler: lines written to the
standard error stream and invocations of the external `goErrorHandler`
logger as (handlerIdx, severity, number, message) tuples. -/
structure HandlerEffects where
  stderrLines : List String
  loggerCalls : List (Nat × Nat × Nat × String)
  deriving Repr, DecidableEq

/-- `static godalErrorHandler` (godal.cpp lines 39-67).  With an external
logger configured, every diagnostic is forwarded to it and a nonzero logger
return marks the context failed.  Without one, sub-warning diagnostics go
to the standard error stream only, and warning-or-worse messages are
appended (newline-joined) to the aggregated error string. -/
def godalErrorHandler (logger : Nat → Nat → Nat → String → Int)
    (ctx : cctx) (e : Nat) (n : Nat) (msg : String) : cctx × HandlerEffects :=
  if ctx.handlerIdx ≠ 0 then
    if logger ctx.handlerIdx e n msg ≠ 0 ∧ ctx.failed = 0 then
      ({ ctx with failed := 1 },
       { stderrLines := [], loggerCalls := [(ctx.handlerIdx, e, n, msg)] })
    else
      (ctx, { stderrLines := [], loggerCalls := [(ctx.handlerIdx, e, n, msg)] })
  else
    if e < CE_Warning then
      (ctx, { stderrLines := [msg], loggerCalls := [] })
    else
      match ctx.errMessage with
      | none =>
        ({ ctx with errMessage := some msg },
         { stderrLines := [], loggerCalls := [] })
      | some m =>
        ({ ctx with errMessage := some (m ++ "\n" ++ msg) },
         { stderrLines := [], loggerCalls := [] })

/-- `inline int failed(cctx*)` (godal.cpp lines 99-104). -/
def failedFn (ctx : cctx) : Nat :=
  if ctx.errMessage ≠ none ∨ ctx.failed ≠ 0 then 1 else 0

/-- `inline void forceError` (godal.cpp lines 106-110): when the context
holds neither a message nor the failure flag, raise a CPLError with the
generic text, which is delivered to the installed godalErrorHandler. -/
def forceError (logger : Nat → Nat → Nat → String → Int) (ctx : cctx) :
    cctx × HandlerEffects :=
  if ctx.errMessage = none ∧ ctx.failed = 0 then
    godalErrorHandler logger ctx CE_Failure CPLE_AppDefined "unknown error"
  else
    (ctx, { stderrLines := [], loggerCalls := [] })

/-- Modelled from the spec (section 4.1): the thread-local configuration
store mutated by GDAL CPLSetThreadLocalConfigOption, which is not part of
this repository; setting a key to none erases the override. -/
def setThreadLocalConfigOption (store : String → Option String)
    (key : String) (v : Option String) : String → Option String :=
  fun k => if k = key then v else store k

/-- The index of the first occurrence of `c`, as strchr finds it. -/
def strchrIdx (c : Char) : List Char → Option Nat
  | [] => none
  | x :: xs => if x = c then some 0 else (strchrIdx c xs).map (· + 1)

/-- Body of the godalWrap loop (godal.cpp lines 70-80) for one option
string: when it holds an =, write a NUL over it (the C string then reads as
the key alone), set the thread-local option to the text after the =, and
restore the =.  Returns the updated store and the option string as left in
memory afterwards. -/
def applyConfigOption (store : String → Option String) (option : List Char) :
    (String → Option String) × List Char :=
  match strchrIdx '=' option with
  | none => (store, option)
  | some i =>
    (setThreadLocalConfigOption store (String.mk (option.take i))
       (some (String.mk (option.drop (i + 1)))),
     option.set i '=')

/-- Body of the godalUnwrap loop (godal.cpp lines 87-96) for one option
string: same key parse, but the thread-local option is reverted to unset
(nullptr), never to a previous value. -/
def unsetConfigOption (store : String → Option String) (option : List Char) :
    (String → Option String) × List Char :=
  match strchrIdx '=' option with
  | none => (store, option)
  | some i =>
    (setThreadLocalConfigOption store (String.mk (option.take i)) none,
     option.set i '=')

/-- The config-applying loop of `godalWrap`. -/
def godalWrapConfig (store : String → Option String) :
    List (List Char) → (String → Option String) × List (List Char)
  | [] => (store, [])
  | o :: os =>
    let r := applyConfigOption store o
    let rest := godalWrapConfig r.1 os
    (rest.1, r.2 :: rest.2)

/-- The config-unsetting loop of `godalUnwrap`. -/
def godalUnwrapConfig (store : String → Option String) :
    List (List Char) → (String → Option String) × List (List Char)
  | [] => (store, [])
  | o :: os =>
    let r := unsetConfigOption store o
    let rest := godalUnwrapConfig r.1 os
    (rest.1, r.2 :: rest.2)

/-- The keys the two loops parse out of a config list: for every member
holding an =, the text before its first =. -/
def parsedKeys (opts : List (List Char)) : List String :=
  opts.filterMap (fun o => (strchrIdx '=' o).map (fun i => String.mk (o.take i)))

/-- Feeding a list of native diagnostics through the installed handler, in
order, threading the context. -/
def processDiags (logger : Nat → Nat → Nat → String → Int) (ctx : cctx) :
    List Diag → cctx × HandlerEffects
  | [] => (ctx, { stderrLines := [], loggerCalls := [] })
  | d :: ds =>
    let r := godalErrorHandler logger ctx d.sev d.num d.msg
    let rest := processDiags logger r.1 ds
    (rest.1,
     { stderrLines := r.2.stderrLines ++ rest.2.stderrLines,
       loggerCalls := r.2.loggerCalls ++ rest.2.loggerCalls })

/-- Everything a bridged call returns to the Go side: the primary result,
the final context, the final thread-local config store, and the handler
side effects. -/
structure GodalCallResult where
  result : Option Nat
  ctx : cctx
  store : String → Option String
  effects : HandlerEffects

/-- `godalOpen` (godal.cpp lines 148-157).  The native `GDALOpenEx` call is
a black box given by `nativeCall`: the handle it returns (none for null)
and the diagnostics it emits through the installed handler.  godalWrap
applies the config overrides, the native diagnostics are collected, a null
result triggers forceError, and godalUnwrap reverts every override to
unset on every path before returning. -/
def godalOpen (logger : Nat → Nat → Nat → String → Int)
    (nativeCall : Option Nat × List Diag) (ctx : cctx)
    (store : String → Option String) : GodalCallResult :=
  let w := godalWrapConfig store ctx.configOptions
  let ctx1 : cctx := { ctx with configOptions := w.2 }
  let p := processDiags logger ctx1 nativeCall.2
  let f := if nativeCall.1 = none then forceError logger p.1
           else (p.1, { stderrLines := [], loggerCalls := [] })
  let u := godalUnwrapConfig w.1 f.1.configOptions
  { result := nativeCall.1,
    ctx := { f.1 with configOptions := u.2 },
    store := u.1,
    effects :=
      { stderrLines := p.2.stderrLines ++ f.2.stderrLines,
        loggerCalls := p.2.loggerCalls ++ f.2.loggerCalls } }

/-- The OGRNullFID sentinel of ogr_core.h. -/
def OGRNullFID : Int := -1

/-- An OGR feature, reduced to the one attribute the bridge reads:
its feature identifier as returned by `OGR_F_GetFID`. -/
structure OGRFeature where
  fid : Int
  deriving Repr, DecidableEq

/-- `inline void forceOGRError` (godal.cpp lines 118-122). -/
def forceOGRError (logger : Nat → Nat → Nat → String → Int) (ctx : cctx)
    (err : Nat) : cctx × HandlerEffects :=
  if ctx.errMessage = none ∧ ctx.failed = 0 then
    godalErrorHandler logger ctx CE_Failure CPLE_AppDefined
      ("unknown ogr error " ++ toString err)
  else
    (ctx, { stderrLines := [], loggerCalls := [] })

/-- Result of `godalLayerDeleteFeature`: final context and store, handler
side effects, and the trace of FIDs passed to the native
`OGR_L_DeleteFeature`. -/
structure DeleteFeatureResult where
  ctx : cctx
  store : String → Option String
  effects : HandlerEffects
  nativeCalls : List Int

/-- `godalLayerDeleteFeature` (godal.cpp lines 711-724).  `deleteNative`
models `OGR_L_DeleteFeature`, returning its OGRErr.  A feature whose FID is
OGRNullFID raises the descriptive CPLError through the installed handler
and returns without calling the native routine; otherwise the native
routine runs and a nonzero OGRErr is forced into an error. -/
def godalLayerDeleteFeature (logger : Nat → Nat → Nat → String → Int)
    (deleteNative : Int → Nat) (ctx : cctx)
    (store : String → Option String) (feat : OGRFeature) :
    DeleteFeatureResult :=
  let w := godalWrapConfig store ctx.configOptions
  let ctx1 : cctx := { ctx with configOptions := w.2 }
  let fid := feat.fid
  if fid = OGRNullFID then
    let r := godalErrorHandler logger ctx1 CE_Failure CPLE_AppDefined
      "cannot delete feature with no FID"
    let u := godalUnwrapConfig w.1 r.1.configOptions
    { ctx := { r.1 with configOptions := u.2 }, store := u.1,
      effects := r.2, nativeCalls := [] }
  else
    let gret := deleteNative fid
    let f := if gret ≠ 0 then forceOGRError logger ctx1 gret
             else (ctx1, { stderrLines := [], loggerCalls := [] })
    let u := godalUnwrapConfig w.1 f.1.configOptions
    { ctx := { f.1 with configOptions := u.2 }, store := u.1,
      effects := f.2, nativeCalls := [fid] }

/-- Restoring the = that the NUL overwrote leaves the option string as it
was: writing `c` at the index where strchr found `c` is the identity. -/
lemma strchrIdx_set (c : Char) :
    ∀ (l : List Char) (i : Nat), strchrIdx c l = some i → l.set i c = l := by
  intro l
  induction l with
  | nil => intro i h; simp [strchrIdx] at h
  | cons x xs ih =>
    intro i h
    unfold strchrIdx at h
    by_cases hx : x = c
    · rw [if_pos hx] at h
      injection h with h
      subst h
      rw [show (x :: xs).set 0 c = c :: xs from rfl, hx]
    · rw [if_neg hx] at h
      cases hxs : strchrIdx c xs with
      | none => rw [hxs] at h; simp at h
      | some j =>
        rw [hxs] at h
        simp only [Option.map_some'] at h
        injection h with h
        subst h
        rw [show (x :: xs).set (j + 1) c = x :: xs.set j c from rfl, ih j hxs]

/-- One wrap iteration leaves the option string byte-for-byte unchanged. -/
lemma applyConfigOption_snd (store : String → Option String)
    (o : List Char) : (applyConfigOption store o).2 = o := by
  unfold applyConfigOption
  cases h : strchrIdx '=' o with
  | none => rfl
  | some i => simpa using strchrIdx_set '=' o i h

/-- One unwrap iteration leaves the option string byte-for-byte unchanged. -/
lemma unsetConfigOption_snd (store : String → Option String)
    (o : List Char) : (unsetConfigOption store o).2 = o := by
  unfold unsetConfigOption
  cases h : strchrIdx '=' o with
  | none => rfl
  | some i => simpa using strchrIdx_set '=' o i h

/-- The wrap loop leaves the whole config list byte-for-byte unchanged. -/
lemma godalWrapConfig_snd (store : String → Option String)
    (opts : List (List Char)) : (godalWrapConfig store opts).2 = opts := by
  induction opts generalizing store with
  | nil => rfl
  | cons o os ih =>
    unfold godalWrapConfig
    simp [applyConfigOption_snd, ih]

/-- The unwrap loop leaves the whole config list byte-for-byte unchanged. -/
lemma godalUnwrapConfig_snd (store : String → Option String)
    (opts : List (List Char)) : (godalUnwrapConfig store opts).2 = opts := by
  induction opts generalizing store with
  | nil => rfl
  | cons o os ih =>
    unfold godalUnwrapConfig
    simp [unsetConfigOption_snd, ih]

/-- After the unwrap loop, every key parsed from the list is unset and every
other key still holds its previous value. -/
lemma godalUnwrapConfig_fst (store : String → Option String)
    (opts : List (List Char)) (k : String) :
    (godalUnwrapConfig store opts).1 k =
      if k ∈ parsedKeys opts then none else store k := by
  induction opts generalizing store with
  | nil => simp [godalUnwrapConfig, parsedKeys]
  | cons o os ih =>
    unfold godalUnwrapConfig unsetConfigOption
    cases h : strchrIdx '=' o with
    | none =>
      simp only [h]
      rw [ih]
      have hpk : parsedKeys (o :: os) = parsedKeys os := by
        simp [parsedKeys, h]
      rw [hpk]
    | some i =>
      simp only [h]
      rw [ih]
      have hpk : parsedKeys (o :: os) =
          String.mk (o.take i) :: parsedKeys os := by
        simp [parsedKeys, h]
      rw [hpk]
      by_cases hmem : k ∈ parsedKeys os
      · simp [hmem]
      · by_cases hk : k = String.mk (o.take i)
        · simp [hmem, hk, setThreadLocalConfigOption]
        · simp [hmem, hk, setThreadLocalConfigOption]

/-- The wrap loop only writes the keys parsed from the list: every other
key keeps its previous value. -/
lemma godalWrapConfig_fst_not_parsed (store : String → Option String)
    (opts : List (List Char)) (k : String) (hk : k ∉ parsedKeys opts) :
    (godalWrapConfig store opts).1 k = store k := by
  induction opts generalizing store with
  | nil => rfl
  | cons o os ih =>
    unfold godalWrapConfig applyConfigOption
    cases h : strchrIdx '=' o with
    | none =>
      simp only [h]
      have hpk : parsedKeys (o :: os) = parsedKeys os := by
        simp [parsedKeys, h]
      rw [hpk] at hk
      exact ih store hk
    | some i =>
      simp only [h]
      have hpk : parsedKeys (o :: os) =
          String.mk (o.take i) :: parsedKeys os := by
        simp [parsedKeys, h]
      rw [hpk] at hk
      simp only [List.mem_cons, not_or] at hk
      rw [ih _ hk.2]
      simp [setThreadLocalConfigOption, hk.1]

/-- The installed handler never touches the config list of the context. -/
lemma godalErrorHandler_configOptions
    (logger : Nat → Nat → Nat → String → Int) (ctx : cctx)
    (e n : Nat) (msg : String) :
    (godalErrorHandler logger ctx e n msg).1.configOptions =
      ctx.configOptions := by
  unfold godalErrorHandler
  split
  · split <;> rfl
  · split
    · rfl
    · split <;> rfl

/-- Neither does the handler touch the logger identifier. -/
lemma godalErrorHandler_handlerIdx
    (logger : Nat → Nat → Nat → String → Int) (ctx : cctx)
    (e n : Nat) (msg : String) :
    (godalErrorHandler logger ctx e n msg).1.handlerIdx = ctx.handlerIdx := by
  unfold godalErrorHandler
  split
  · split <;> rfl
  · split
    · rfl
    · split <;> rfl

/-- Collecting native diagnostics never touches the config list. -/
lemma processDiags_configOptions (logger : Nat → Nat → Nat → String → Int)
    (ctx : cctx) (ds : List Diag) :
    (processDiags logger ctx ds).1.configOptions = ctx.configOptions := by
  induction ds generalizing ctx with
  | nil => rfl
  | cons d ds ih =>
    unfold processDiags
    simp [ih, godalErrorHandler_configOptions]

/-- forceError never touches the config list. -/
lemma forceError_configOptions (logger : Nat → Nat → Nat → String → Int)
    (ctx : cctx) :
    (forceError logger ctx).1.configOptions = ctx.configOptions := by
  unfold forceError
  split
  · exact godalErrorHandler_configOptions logger ctx _ _ _
  · rfl

/-- forceError leaves the context failed, bearing a message, or having
told the external logger: never all three silent. -/
lemma forceError_not_silent (logger : Nat → Nat → Nat → String → Int)
    (ctx : cctx) :
    (forceError logger ctx).1.errMessage ≠ none ∨
    (forceError logger ctx).1.failed ≠ 0 ∨
    (forceError logger ctx).2.loggerCalls ≠ [] := by
  unfold forceError
  by_cases h : ctx.errMessage = none ∧ ctx.failed = 0
  · rw [if_pos h]
    unfold godalErrorHandler
    by_cases hidx : ctx.handlerIdx ≠ 0
    · rw [if_pos hidx]
      right; right
      split <;> simp
    · rw [if_neg hidx]
      have : ¬ (CE_Failure < CE_Warning) := by norm_num [CE_Failure, CE_Warning]
      rw [if_neg this]
      rw [h.1]
      left
      simp
  · rw [if_neg h]
    rw [not_and_or] at h
    rcases h with h | h
    · exact Or.inl h
    · exact Or.inr (Or.inl h)

/-- Helper: the post-native step of godalOpen (forceError on a null result,
identity otherwise) never touches the config list. -/
lemma postNative_configOptions (logger : Nat → Nat → Nat → String → Int)
    (c : cctx) (eff : HandlerEffects) (b : Prop) [Decidable b] :
    (if b then forceError logger c else (c, eff)).1.configOptions =
      c.configOptions := by
  split
  · exact forceError_configOptions logger c
  · rfl

/-- Claim C6: for any bridged call — whatever the native result, so on the
success and on the failure path alike — every KEY=VALUE override in the
context config list is reverted to unset (none), never to a prior store
value; every key not parsed from the list keeps its previous store value;
and the config list itself is byte-for-byte unchanged. -/
theorem godalOpen_config_scope (logger : Nat → Nat → Nat → String → Int)
    (nativeCall : Option Nat × List Diag) (ctx : cctx)
    (store : String → Option String) :
    (∀ k, (godalOpen logger nativeCall ctx store).store k =
      if k ∈ parsedKeys ctx.configOptions then none else store k) ∧
    (godalOpen logger nativeCall ctx store).ctx.configOptions =
      ctx.configOptions := by
  have hw2 := godalWrapConfig_snd store ctx.configOptions
  constructor
  · intro k
    show (godalUnwrapConfig (godalWrapConfig store ctx.configOptions).1 _).1 k = _
    rw [godalUnwrapConfig_fst, postNative_configOptions,
      processDiags_configOptions]
    simp only [hw2]
    by_cases hmem : k ∈ parsedKeys ctx.configOptions
    · simp [hmem]
    · simp [hmem, godalWrapConfig_fst_not_parsed store ctx.configOptions k hmem]
  · show (godalUnwrapConfig (godalWrapConfig store ctx.configOptions).1 _).2 = _
    rw [godalUnwrapConfig_snd, postNative_configOptions,
      processDiags_configOptions]
    simpa using hw2

/-- Claim C5: when the native call comes back null, the caller never sees a
silent failure: the final context carries a message or the failure flag, or
the external logger received a diagnostic; and on a call that produced no
diagnostic at all with a clean no-logger context, the bridge synthesizes
exactly the generic "unknown error" message. -/
theorem godalOpen_null_not_silent (logger : Nat → Nat → Nat → String → Int)
    (nativeCall : Option Nat × List Diag) (ctx : cctx)
    (store : String → Option String) (hres : nativeCall.1 = none) :
    ((godalOpen logger nativeCall ctx store).ctx.errMessage ≠ none ∨
     (godalOpen logger nativeCall ctx store).ctx.failed ≠ 0 ∨
     (godalOpen logger nativeCall ctx store).effects.loggerCalls ≠ []) ∧
    (ctx.handlerIdx = 0 → ctx.errMessage = none → ctx.failed = 0 →
      nativeCall.2 = [] →
      (godalOpen logger nativeCall ctx store).ctx.errMessage =
        some "unknown error") := by
  obtain ⟨r, ds⟩ := nativeCall
  have hr : r = none := hres
  subst hr
  constructor
  · rcases forceError_not_silent logger
        (processDiags logger
          { ctx with configOptions := (godalWrapConfig store ctx.configOptions).2 }
          ds).1 with h | h | h
    · exact Or.inl h
    · exact Or.inr (Or.inl h)
    · refine Or.inr (Or.inr ?_)
      intro hcontra
      have hcontra' :
          (processDiags logger
            { ctx with configOptions := (godalWrapConfig store ctx.configOptions).2 }
            ds).2.loggerCalls ++
          (forceError logger (processDiags logger
            { ctx with configOptions := (godalWrapConfig store ctx.configOptions).2 }
            ds).1).2.loggerCalls = [] := hcontra
      exact h (List.append_eq_nil.mp hcontra').2
  · intro h0 hmsg hfail hdiag
    subst hdiag
    show (forceError logger
        { ctx with configOptions := (godalWrapConfig store ctx.configOptions).2 }).1.errMessage =
      some "unknown error"
    simp [forceError, godalErrorHandler, hmsg, hfail, h0, CE_Failure, CE_Warning]

/-- Witness for godalOpen_null_not_silent: null native result, no
diagnostics, clean context without an external logger. -/
theorem godalOpen_null_not_silent_witness :
    (((none, []) : Option Nat × List Diag).1 = none) ∧
    (((godalOpen (fun _ _ _ _ => 0) (none, []) ⟨none, 0, 0, []⟩
        (fun _ => none)).ctx.errMessage ≠ none ∨
      (godalOpen (fun _ _ _ _ => 0) (none, []) ⟨none, 0, 0, []⟩
        (fun _ => none)).ctx.failed ≠ 0 ∨
      (godalOpen (fun _ _ _ _ => 0) (none, []) ⟨none, 0, 0, []⟩
        (fun _ => none)).effects.loggerCalls ≠ []) ∧
     ((⟨none, 0, 0, []⟩ : cctx).handlerIdx = 0 →
      (⟨none, 0, 0, []⟩ : cctx).errMessage = none →
      (⟨none, 0, 0, []⟩ : cctx).failed = 0 →
      ((none, []) : Option Nat × List Diag).2 = [] →
      (godalOpen (fun _ _ _ _ => 0) (none, []) ⟨none, 0, 0, []⟩
        (fun _ => none)).ctx.errMessage = some "unknown error")) :=
  ⟨rfl,
   godalOpen_null_not_silent (fun _ _ _ _ => 0) (none, []) ⟨none, 0, 0, []⟩
     (fun _ => none) rfl⟩

/-- Claim C9: deleting a feature whose FID is the null sentinel never calls
the native deletion routine, and raises the descriptive diagnostic: with no
external logger and a clean message slot it lands verbatim in the
aggregated error message, and with an external logger it is forwarded to
it. -/
theorem deleteFeature_no_fid_rejected_locally
    (logger : Nat → Nat → Nat → String → Int) (deleteNative : Int → Nat)
    (ctx : cctx) (store : String → Option String) (feat : OGRFeature)
    (hfid : feat.fid = OGRNullFID) :
    (godalLayerDeleteFeature logger deleteNative ctx store feat).nativeCalls =
      [] ∧
    (ctx.handlerIdx = 0 → ctx.errMessage = none →
      (godalLayerDeleteFeature logger deleteNative ctx store
        feat).ctx.errMessage = some "cannot delete feature with no FID") ∧
    (ctx.handlerIdx ≠ 0 →
      (godalLayerDeleteFeature logger deleteNative ctx store
        feat).effects.loggerCalls =
        [(ctx.handlerIdx, CE_Failure, CPLE_AppDefined,
          "cannot delete feature with no FID")]) := by
  obtain ⟨fid⟩ := feat
  have hf : fid = OGRNullFID := hfid
  subst hf
  refine ⟨rfl, ?_, ?_⟩
  · intro h0 hmsg
    show (godalErrorHandler logger
        { ctx with configOptions := (godalWrapConfig store ctx.configOptions).2 }
        CE_Failure CPLE_AppDefined "cannot delete feature with no FID").1.errMessage =
      some "cannot delete feature with no FID"
    simp [godalErrorHandler, h0, hmsg, CE_Failure, CE_Warning]
  · intro hidx
    show (godalErrorHandler logger
        { ctx with configOptions := (godalWrapConfig store ctx.configOptions).2 }
        CE_Failure CPLE_AppDefined "cannot delete feature with no FID").2.loggerCalls =
      [(ctx.handlerIdx, CE_Failure, CPLE_AppDefined,
        "cannot delete feature with no FID")]
    unfold godalErrorHandler
    rw [if_pos (by simpa using hidx)]
    split <;> rfl

/-- Witness for deleteFeature_no_fid_rejected_locally at a concrete null
FID feature and clean context. -/
theorem deleteFeature_no_fid_rejected_locally_witness :
    ((⟨OGRNullFID⟩ : OGRFeature).fid = OGRNullFID) ∧
    ((godalLayerDeleteFeature (fun _ _ _ _ => 0) (fun _ => 0)
        ⟨none, 0, 0, []⟩ (fun _ => none) ⟨OGRNullFID⟩).nativeCalls = [] ∧
     ((⟨none, 0, 0, []⟩ : cctx).handlerIdx = 0 →
      (⟨none, 0, 0, []⟩ : cctx).errMessage = none →
      (godalLayerDeleteFeature (fun _ _ _ _ => 0) (fun _ => 0)
        ⟨none, 0, 0, []⟩ (fun _ => none) ⟨OGRNullFID⟩).ctx.errMessage =
        some "cannot delete feature with no FID") ∧
     ((⟨none, 0, 0, []⟩ : cctx).handlerIdx ≠ 0 →
      (godalLayerDeleteFeature (fun _ _ _ _ => 0) (fun _ => 0)
        ⟨none, 0, 0, []⟩ (fun _ => none) ⟨OGRNullFID⟩).effects.loggerCalls =
        [((⟨none, 0, 0, []⟩ : cctx).handlerIdx, CE_Failure, CPLE_AppDefined,
          "cannot delete feature with no FID")])) :=
  ⟨rfl,
   deleteFeature_no_fid_rejected_locally (fun _ _ _ _ => 0) (fun _ => 0)
     ⟨none, 0, 0, []⟩ (fun _ => none) ⟨OGRNullFID⟩ rfl⟩

end Godal
